import Mathlib

/-!
Verification of the QR contact generator (`src/main.rs`).

The development shallowly embeds the three pieces of designed logic of the
repository:

* `BusinessContact.generate_vcard` — the pure vCard 3.0 encoder
  (`src/main.rs`, `impl BusinessContact`);
* `BusinessCardApp.generate_qr_code` — conversion of the library's grayscale
  QR buffer into an opaque RGBA image (`src/main.rs`,
  `fn generate_qr_code`);
* `BusinessCardApp.save_qr_code_to_png` — the PNG export path with its
  empty-input guard and I/O error propagation (`src/main.rs`,
  `fn save_qr_code_to_png`).

The external `qrcode_generator` rasterization library is modelled abstractly
as a structure `QrLib`, with the properties the design document assigns to
the library boundary.  Filesystem writes are modelled by an oracle and an
explicit effect trace.
-/

/-- Newline, the line terminator used between vCard lines (`\n` in the Rust
format strings). -/
def nl : String := "\n"

/-- Mirrors `struct BusinessContact` from `src/main.rs`: ten free-text
fields. -/
structure BusinessContact where
  first_name : String
  last_name : String
  organization : String
  title : String
  email : String
  phone : String
  mobile : String
  website : String
  address : String
  note : String
deriving Repr, DecidableEq

/-- Mirrors `BusinessContact::generate_vcard` from `src/main.rs`.  Each
`push_str`/`format!` of the Rust source becomes a string append; the
conditional `push_str` of an optional field becomes an append of `""` when
the field `is_empty()`.  The `\n` inside each Rust format string is the
separate final append `nl` of the corresponding group. -/
def BusinessContact.generate_vcard (self : BusinessContact) : String :=
  "BEGIN:VCARD" ++ nl ++
  "VERSION:3.0" ++ nl ++
  "N:" ++ self.last_name ++ ";" ++ self.first_name ++ ";;;" ++ nl ++
  "FN:" ++ self.first_name ++ " " ++ self.last_name ++ nl ++
  (if self.organization.isEmpty then "" else "ORG:" ++ self.organization ++ nl) ++
  (if self.title.isEmpty then "" else "TITLE:" ++ self.title ++ nl) ++
  (if self.email.isEmpty then "" else "EMAIL;type=WORK,INTERNET:" ++ self.email ++ nl) ++
  (if self.phone.isEmpty then "" else "TEL;type=WORK,voice:" ++ self.phone ++ nl) ++
  (if self.mobile.isEmpty then "" else "TEL;type=CELL,voice:" ++ self.mobile ++ nl) ++
  (if self.website.isEmpty then "" else "URL:" ++ self.website ++ nl) ++
  (if self.address.isEmpty then "" else "ADR;type=WORK:;;" ++ self.address ++ ";;;;" ++ nl) ++
  (if self.note.isEmpty then "" else "NOTE:" ++ self.note ++ nl) ++
  "END:VCARD"

/-- Splits a character list into the list of its newline-separated lines,
with the semantics of splitting a string on `\n` (an empty input has the
single empty line; a trailing newline yields a trailing empty line). -/
def splitLines : List Char → List (List Char)
  | [] => [[]]
  | c :: cs =>
    if c = '\n' then [] :: splitLines cs
    else
      match splitLines cs with
      | [] => [[c]]
      | l :: ls => (c :: l) :: ls

/-- Prepends characters onto the first line of a line list. -/
def consPre (xs : List Char) : List (List Char) → List (List Char)
  | [] => [xs]
  | l :: ls => (xs ++ l) :: ls

/-- The newline-separated lines of a string. -/
def linesOf (s : String) : List (List Char) := splitLines s.data

/-- Whether a line begins with the given string. -/
def lineStarts (pre : String) (l : List Char) : Bool := pre.data.isPrefixOf l

/-- The line markers named by the design document. -/
def pN : String := "N:"

def pFN : String := "FN:"

def pORG : String := "ORG:"

def pTITLE : String := "TITLE:"

def pEMAIL : String := "EMAIL;type=WORK,INTERNET:"

def pTELW : String := "TEL;type=WORK,voice:"

def pTELC : String := "TEL;type=CELL,voice:"

def pURL : String := "URL:"

def pADR : String := "ADR;type=WORK:"

def pNOTE : String := "NOTE:"

/-- No field of the record contains a newline character.  This is exactly the
situation reachable through the single-line form inputs of the GUI; a record
whose fields embed `\n` can forge extra vCard lines because the encoder
performs no escaping. -/
def NoNewlines (r : BusinessContact) : Prop :=
  '\n' ∉ r.first_name.data ∧ '\n' ∉ r.last_name.data ∧ '\n' ∉ r.organization.data ∧
  '\n' ∉ r.title.data ∧ '\n' ∉ r.email.data ∧ '\n' ∉ r.phone.data ∧ '\n' ∉ r.mobile.data ∧
  '\n' ∉ r.website.data ∧ '\n' ∉ r.address.data ∧ '\n' ∉ r.note.data

instance (r : BusinessContact) : Decidable (NoNewlines r) := by
  unfold NoNewlines
  infer_instance

/-- The record of the worked example in the design document: Jane Doe of
Acme with an email address and all other fields empty. -/
def janeDoe : BusinessContact :=
  { first_name := "Jane", last_name := "Doe", organization := "Acme",
    title := "", email := "jane@acme.com", phone := "", mobile := "",
    website := "", address := "", note := "" }

/-- The record with all ten fields empty. -/
def emptyContact : BusinessContact :=
  { first_name := "", last_name := "", organization := "", title := "",
    email := "", phone := "", mobile := "", website := "", address := "",
    note := "" }

/-- A record whose note field embeds a newline followed by forged `N:` and
`ORG:` lines. -/
def forgedContact : BusinessContact :=
  { first_name := "", last_name := "", organization := "", title := "",
    email := "", phone := "", mobile := "", website := "", address := "",
    note := "x\nN:forged\nORG:forged" }

/-- A record with every field non-empty, several of them containing the
vCard-reserved characters comma, semicolon and backslash. -/
def fullContact : BusinessContact :=
  { first_name := "Ada", last_name := "Lovelace", organization := "a,b;c\\d",
    title := "Dr; PhD", email := "ada@acme.com", phone := "+61 2 5550 1234",
    mobile := "+61 4 5550 4321", website := "https://acme.example",
    address := "1 Main St, Sydney; NSW", note := "line with , and ; and \\" }

/-- Error-correction levels of the qrcode-generator library; the program
always passes `Medium` (`QrCodeEcc::Medium` in `src/main.rs`). -/
inductive QrCodeEcc
  | Low
  | Medium
  | Quartile
  | High
deriving Repr, DecidableEq

/-- A grayscale image buffer as returned by the rasterization library:
row-major single-channel byte samples. -/
structure GrayImage where
  width : Nat
  height : Nat
  pixels : List Nat
deriving Repr, DecidableEq

/-- Modelled from the spec: the external `qrcode_generator` rasterization
library boundary (design document, External Interfaces).  `to_image_buffer`
takes text, an error-correction level and a target pixel size and either
returns a square grayscale buffer of exactly the requested size with
byte-valued samples, or fails with the library's error (for instance when
the data exceeds the QR capacity).  `decode_image` is a conforming scanner:
re-decoding a successfully produced buffer recovers the encoded text (the
round-trip property of the design document). -/
structure QrLib where
  to_image_buffer : String → QrCodeEcc → Nat → Except String GrayImage
  decode_image : GrayImage → Option String
  size_spec : ∀ t e s img, to_image_buffer t e s = Except.ok img →
    img.width = s ∧ img.height = s ∧ img.pixels.length = s * s ∧ ∀ p ∈ img.pixels, p ≤ 255
  decode_spec : ∀ t e s img, to_image_buffer t e s = Except.ok img →
    decode_image img = some t

/-- An RGBA image as handed to the GUI (`egui::ColorImage`): a size and one
(R, G, B, A) tuple per pixel; each group of four `rgba_data.push` calls of
the Rust source is one tuple. -/
structure ColorImage where
  size : Nat × Nat
  rgba : List (Nat × Nat × Nat × Nat)
deriving Repr, DecidableEq

/-- Mirrors `BusinessCardApp::generate_qr_code` from `src/main.rs`.  The
`.unwrap()` of the Rust source on the library's `Result` is modelled as
`none` (a panic) in the error case; in the success case each grayscale
sample `value` becomes the pixel `(value, value, value, 255)`. -/
def generate_qr_code (lib : QrLib) (text : String) : Option ColorImage :=
  match lib.to_image_buffer text QrCodeEcc.Medium 512 with
  | Except.error _ => none
  | Except.ok qr_code =>
    some { size := (qr_code.width, qr_code.height),
           rgba := qr_code.pixels.map (fun value => (value, value, value, 255)) }

/-- Observable side effects of the export path: a rasterizer invocation, or
a write attempt of a rasterized image at a path. -/
inductive Effect
  | rasterize (text : String)
  | writeFile (path : String) (img : GrayImage)
deriving Repr, DecidableEq

/-- Outcome of a call that may panic (a Rust `unwrap` of an `Err`). -/
inductive PanicOr (α : Type)
  | panicked (msg : String)
  | ret (a : α)
deriving Repr, DecidableEq

/-- Mirrors `BusinessCardApp::save_qr_code_to_png` from `src/main.rs`.
`fsSave` is the filesystem/PNG-encoding oracle standing for the
`ImageBuffer::save` call; the returned list is the trace of effects that
occurred.  The empty-input guard returns the Rust error string
`No vCard generated yet`; a failed save is wrapped in
`Failed to save QR code: ` followed by the underlying message, exactly as
the `format!` in the source does. -/
def save_qr_code_to_png (lib : QrLib) (fsSave : String → GrayImage → Except String Unit)
    (vcard_text : String) (path : String) :
    PanicOr (Except String Unit) × List Effect :=
  if vcard_text.isEmpty then
    (PanicOr.ret (Except.error "No vCard generated yet"), [])
  else
    match lib.to_image_buffer vcard_text QrCodeEcc.Medium 512 with
    | Except.error e => (PanicOr.panicked e, [Effect.rasterize vcard_text])
    | Except.ok qr_code =>
      match fsSave path qr_code with
      | Except.ok _ =>
        (PanicOr.ret (Except.ok ()),
         [Effect.rasterize vcard_text, Effect.writeFile path qr_code])
      | Except.error e =>
        (PanicOr.ret (Except.error ("Failed to save QR code: " ++ e)),
         [Effect.rasterize vcard_text, Effect.writeFile path qr_code])

/-- The text used to exercise the concrete library model. -/
def helloText : String := "hello"

/-- The empty text. -/
def emptyText : String := ""

/-- The default save path of the application (`save_path` in
`src/main.rs`). -/
def defaultPath : String := "qrcode.png"

/-- The buffer the concrete library model produces for `helloText` at size
512. -/
def okImg : GrayImage :=
  { width := 512, height := 512, pixels := List.replicate (512 * 512) 255 }

/-- A lawful concrete library model succeeding exactly on `helloText`. -/
def okLib : QrLib where
  to_image_buffer := fun t _ s =>
    if t = helloText then
      Except.ok { width := s, height := s, pixels := List.replicate (s * s) 255 }
    else Except.error "unsupported"
  decode_image := fun _ => some helloText
  size_spec := by
    intro t e s img h
    dsimp only at h
    by_cases ht : t = helloText
    · rw [if_pos ht] at h
      injection h with h2
      subst h2
      refine ⟨rfl, rfl, by simp, ?_⟩
      intro p hp
      have hp2 := List.eq_of_mem_replicate hp
      omega
    · rw [if_neg ht] at h
      exact absurd h (by simp)
  decode_spec := by
    intro t e s img h
    dsimp only at h
    by_cases ht : t = helloText
    · subst ht
      rfl
    · rw [if_neg ht] at h
      exact absurd h (by simp)

/-- A lawful concrete library model that rejects every input, as the real
library does whenever the text exceeds the QR capacity of the chosen
error-correction level. -/
def errLib : QrLib where
  to_image_buffer := fun _ _ _ => Except.error "data too long"
  decode_image := fun _ => none
  size_spec := by
    intro t e s img h
    dsimp only at h
    exact absurd h (by simp)
  decode_spec := by
    intro t e s img h
    dsimp only at h
    exact absurd h (by simp)

/-- A filesystem oracle on which every write succeeds. -/
def fsOk : String → GrayImage → Except String Unit := fun _ _ => Except.ok ()

/-- A filesystem oracle on which every write fails. -/
def fsFail : String → GrayImage → Except String Unit :=
  fun _ _ => Except.error "permission denied"

/-- The expected line structure of the encoder output: the four mandatory
lines, the eight optional field lines (present exactly when the field is
non-empty), and the terminating `END:VCARD` line. -/
def vcardLines (r : BusinessContact) : List (List Char) :=
  ("BEGIN:VCARD").data ::
  ("VERSION:3.0").data ::
  (("N:").data ++ (r.last_name.data ++ ((";").data ++ (r.first_name.data ++ (";;;").data)))) ::
  (("FN:").data ++ (r.first_name.data ++ ((" ").data ++ r.last_name.data))) ::
  ((if r.organization.isEmpty then [] else [("ORG:").data ++ r.organization.data]) ++
   ((if r.title.isEmpty then [] else [("TITLE:").data ++ r.title.data]) ++
    ((if r.email.isEmpty then [] else [("EMAIL;type=WORK,INTERNET:").data ++ r.email.data]) ++
     ((if r.phone.isEmpty then [] else [("TEL;type=WORK,voice:").data ++ r.phone.data]) ++
      ((if r.mobile.isEmpty then [] else [("TEL;type=CELL,voice:").data ++ r.mobile.data]) ++
       ((if r.website.isEmpty then [] else [("URL:").data ++ r.website.data]) ++
        ((if r.address.isEmpty then []
          else [("ADR;type=WORK:;;").data ++ (r.address.data ++ (";;;;").data)]) ++
         ((if r.note.isEmpty then [] else [("NOTE:").data ++ r.note.data]) ++
          [("END:VCARD").data]))))))))

/- Auxiliary lemmas about `splitLines`. -/

theorem nl_data : nl.data = ['\n'] := rfl

theorem data_empty : ("").data = [] := rfl

theorem splitLines_cons_nl (cs : List Char) :
    splitLines ('\n' :: cs) = [] :: splitLines cs := by
  simp [splitLines]

theorem splitLines_append_noNl (xs : List Char) (ys : List Char)
    (h : '\n' ∉ xs) : splitLines (xs ++ ys) = consPre xs (splitLines ys) := by
  induction xs with
  | nil =>
    cases hys : splitLines ys with
    | nil =>
      exfalso
      revert hys
      induction ys with
      | nil => intro hys; simp [splitLines] at hys
      | cons c cs ih =>
        intro hys
        by_cases hc : c = '\n'
        · subst hc; rw [splitLines_cons_nl] at hys; exact absurd hys (by simp)
        · simp only [splitLines, if_neg hc] at hys
          cases hsc : splitLines cs with
          | nil => exact ih hsc
          | cons l ls => rw [hsc] at hys; simp at hys
    | cons l ls => simp [consPre, hys]
  | cons c cs ih =>
    have hc : c ≠ '\n' := fun hcc => h (hcc ▸ List.mem_cons_self c cs)
    have hcs : '\n' ∉ cs := fun hm => h (List.mem_cons_of_mem c hm)
    simp only [List.cons_append, splitLines, if_neg hc, List.append_eq]
    rw [ih hcs]
    cases hys : splitLines ys with
    | nil => simp [consPre]
    | cons l ls => simp [consPre]

theorem splitLines_line (xs rest : List Char) (h : '\n' ∉ xs) :
    splitLines (xs ++ '\n' :: rest) = xs :: splitLines rest := by
  rw [splitLines_append_noNl xs _ h, splitLines_cons_nl]
  simp [consPre]

theorem splitLines_opt (c : Prop) [Decidable c] (pre f rest : List Char)
    (hp : '\n' ∉ pre) (hf : '\n' ∉ f) :
    splitLines ((if c then [] else pre ++ (f ++ ['\n'])) ++ rest) =
      (if c then [] else [pre ++ f]) ++ splitLines rest := by
  by_cases hc : c
  · simp [hc]
  · simp only [if_neg hc]
    have hshape : (pre ++ (f ++ ['\n'])) ++ rest = (pre ++ f) ++ '\n' :: rest := by
      simp
    rw [hshape, splitLines_line _ _ (by simp [hp, hf])]
    simp

theorem splitLines_opt3 (c : Prop) [Decidable c] (pre f suf rest : List Char)
    (hp : '\n' ∉ pre) (hf : '\n' ∉ f) (hs : '\n' ∉ suf) :
    splitLines ((if c then [] else pre ++ (f ++ (suf ++ ['\n']))) ++ rest) =
      (if c then [] else [pre ++ (f ++ suf)]) ++ splitLines rest := by
  by_cases hc : c
  · simp [hc]
  · simp only [if_neg hc]
    have hshape : (pre ++ (f ++ (suf ++ ['\n']))) ++ rest =
        (pre ++ (f ++ suf)) ++ '\n' :: rest := by
      simp
    rw [hshape, splitLines_line _ _ (by simp [hp, hf, hs])]
    simp

theorem generate_vcard_data (r : BusinessContact) :
    (r.generate_vcard).data =
    ['B','E','G','I','N',':','V','C','A','R','D'] ++ ('\n' ::
    (['V','E','R','S','I','O','N',':','3','.','0'] ++ ('\n' ::
    (['N',':'] ++ (r.last_name.data ++ ([';'] ++ (r.first_name.data ++ ([';',';',';'] ++ ('\n' ::
    (['F','N',':'] ++ (r.first_name.data ++ ([' '] ++ (r.last_name.data ++ ('\n' ::
    ((if r.organization.isEmpty then [] else ['O','R','G',':'] ++ (r.organization.data ++ ['\n'])) ++
    ((if r.title.isEmpty then [] else ['T','I','T','L','E',':'] ++ (r.title.data ++ ['\n'])) ++
    ((if r.email.isEmpty then []
      else ['E','M','A','I','L',';','t','y','p','e','=','W','O','R','K',',','I','N','T','E','R','N','E','T',':'] ++
        (r.email.data ++ ['\n'])) ++
    ((if r.phone.isEmpty then []
      else ['T','E','L',';','t','y','p','e','=','W','O','R','K',',','v','o','i','c','e',':'] ++
        (r.phone.data ++ ['\n'])) ++
    ((if r.mobile.isEmpty then []
      else ['T','E','L',';','t','y','p','e','=','C','E','L','L',',','v','o','i','c','e',':'] ++
        (r.mobile.data ++ ['\n'])) ++
    ((if r.website.isEmpty then [] else ['U','R','L',':'] ++ (r.website.data ++ ['\n'])) ++
    ((if r.address.isEmpty then []
      else ['A','D','R',';','t','y','p','e','=','W','O','R','K',':',';',';'] ++
        (r.address.data ++ ([';',';',';',';'] ++ ['\n']))) ++
    ((if r.note.isEmpty then [] else ['N','O','T','E',':'] ++ (r.note.data ++ ['\n'])) ++
    ['E','N','D',':','V','C','A','R','D'])))))))))))))))))))))) := by
  simp [BusinessContact.generate_vcard, String.data_append, nl_data, data_empty,
    apply_ite String.data, List.append_assoc]

theorem linesOf_generate_vcard (r : BusinessContact) (h : NoNewlines r) :
    linesOf (r.generate_vcard) = vcardLines r := by
  obtain ⟨h1, h2, h3, h4, h5, h6, h7, h8, h9, h10⟩ := h
  rw [linesOf, generate_vcard_data]
  rw [splitLines_append_noNl (['B','E','G','I','N',':','V','C','A','R','D']) _ (by decide),
    splitLines_cons_nl]
  rw [splitLines_append_noNl (['V','E','R','S','I','O','N',':','3','.','0']) _ (by decide),
    splitLines_cons_nl]
  rw [splitLines_append_noNl (['N',':']) _ (by decide)]
  rw [splitLines_append_noNl _ _ h2]
  rw [splitLines_append_noNl ([';']) _ (by decide)]
  rw [splitLines_append_noNl _ _ h1]
  rw [splitLines_append_noNl ([';',';',';']) _ (by decide), splitLines_cons_nl]
  rw [splitLines_append_noNl (['F','N',':']) _ (by decide)]
  rw [splitLines_append_noNl _ _ h1]
  rw [splitLines_append_noNl ([' ']) _ (by decide)]
  rw [splitLines_append_noNl _ _ h2, splitLines_cons_nl]
  rw [splitLines_opt (r.organization.isEmpty = true) (['O','R','G',':']) _ _ (by decide) h3]
  rw [splitLines_opt (r.title.isEmpty = true) (['T','I','T','L','E',':']) _ _ (by decide) h4]
  rw [splitLines_opt (r.email.isEmpty = true)
    (['E','M','A','I','L',';','t','y','p','e','=','W','O','R','K',',','I','N','T','E','R','N','E','T',':'])
    _ _ (by decide) h5]
  rw [splitLines_opt (r.phone.isEmpty = true)
    (['T','E','L',';','t','y','p','e','=','W','O','R','K',',','v','o','i','c','e',':'])
    _ _ (by decide) h6]
  rw [splitLines_opt (r.mobile.isEmpty = true)
    (['T','E','L',';','t','y','p','e','=','C','E','L','L',',','v','o','i','c','e',':'])
    _ _ (by decide) h7]
  rw [splitLines_opt (r.website.isEmpty = true) (['U','R','L',':']) _ _ (by decide) h8]
  rw [splitLines_opt3 (r.address.isEmpty = true)
    (['A','D','R',';','t','y','p','e','=','W','O','R','K',':',';',';'])
    _ ([';',';',';',';']) _ (by decide) h9 (by decide)]
  rw [splitLines_opt (r.note.isEmpty = true) (['N','O','T','E',':']) _ _ (by decide) h10]
  rw [(by decide : splitLines (['E','N','D',':','V','C','A','R','D']) =
    [['E','N','D',':','V','C','A','R','D']])]
  simp [consPre, vcardLines]

/- Evaluation of line-start tests on lines of the form `q ++ X`, where `q`
is a concrete marker and `X` an arbitrary field value. -/

theorem isPrefixOf_append_of_isPrefixOf (p q X : List Char)
    (h : p.isPrefixOf q = true) : p.isPrefixOf (q ++ X) = true := by
  rw [List.isPrefixOf_iff_prefix] at h ⊢
  exact h.trans (List.prefix_append q X)

theorem isPrefixOf_append_false (p q X : List Char)
    (h1 : p.isPrefixOf q = false) (h2 : q.isPrefixOf p = false) :
    p.isPrefixOf (q ++ X) = false := by
  cases hpt : p.isPrefixOf (q ++ X) with
  | false => rfl
  | true =>
    exfalso
    rw [List.isPrefixOf_iff_prefix] at hpt
    obtain ⟨t, ht⟩ := hpt
    rcases List.append_eq_append_iff.mp ht with ⟨a2, ha, _⟩ | ⟨c2, hc, _⟩
    · have : p.isPrefixOf q = true := List.isPrefixOf_iff_prefix.mpr ⟨a2, ha.symm⟩
      rw [h1] at this
      exact Bool.false_ne_true this
    · have : q.isPrefixOf p = true := List.isPrefixOf_iff_prefix.mpr ⟨c2, hc.symm⟩
      rw [h2] at this
      exact Bool.false_ne_true this

theorem countP_opt (c : Prop) [Decidable c] (p : List Char → Bool) (a : List Char) :
    List.countP p (if c then [] else [a]) = if c then 0 else (if p a = true then 1 else 0) := by
  by_cases hc : c <;> simp [hc, List.countP_cons]

theorem any_opt (c : Prop) [Decidable c] (p : List Char → Bool) (a : List Char) :
    (if c then ([] : List (List Char)) else [a]).any p = if c then false else p a := by
  by_cases hc : c <;> simp [hc]

theorem suffix_append_right (l xs ys : List Char) (h : l <:+ ys) : l <:+ xs ++ ys := by
  obtain ⟨t, rfl⟩ := h
  exact ⟨xs ++ t, by simp⟩

theorem suffix_cons_right (l ys : List Char) (c : Char) (h : l <:+ ys) : l <:+ c :: ys := by
  obtain ⟨t, rfl⟩ := h
  exact ⟨c :: t, rfl⟩

/-- Claim C3: for every path (and any library and filesystem behavior), if
the stored vCard text is empty then the export returns the empty-input
error `No vCard generated yet`, with an empty effect trace: the rasterizer
is never invoked and no filesystem write occurs. -/
theorem C3_empty_export (lib : QrLib) (fs : String → GrayImage → Except String Unit)
    (text path : String) (h : text.isEmpty = true) :
    save_qr_code_to_png lib fs text path =
      (PanicOr.ret (Except.error "No vCard generated yet"), []) := by
  simp [save_qr_code_to_png, h]

/-- Claim C3 witness: the statement at the empty text, the default path and
the concrete library and filesystem models. -/
theorem C3_witness :
    save_qr_code_to_png okLib fsOk emptyText defaultPath =
      (PanicOr.ret (Except.error "No vCard generated yet"), []) :=
  C3_empty_export okLib fsOk emptyText defaultPath rfl

/-- Claim C4: whenever the rasterizer succeeds on a text, render returns an
image of size 512 by 512 whose pixel list replicates each grayscale sample
into the R, G and B channels with alpha 255; the conversion is deterministic
(render is a pure function of the library output) and lossless (projecting
the first channel recovers the grayscale samples exactly). -/
theorem C4_render_rgba (lib : QrLib) (text : String) (img : GrayImage)
    (hok : lib.to_image_buffer text QrCodeEcc.Medium 512 = Except.ok img) :
    generate_qr_code lib text =
      some { size := (512, 512), rgba := img.pixels.map (fun v => (v, v, v, 255)) } ∧
    (img.pixels.map (fun v => (v, v, v, 255))).length = 512 * 512 ∧
    (∀ px ∈ img.pixels.map (fun v => (v, v, v, 255)),
      px.1 = px.2.1 ∧ px.2.1 = px.2.2.1 ∧ px.2.2.2 = 255 ∧ px.1 ≤ 255) ∧
    (img.pixels.map (fun v => (v, v, v, 255))).map (fun px => px.1) = img.pixels := by
  obtain ⟨hw, hh, hlen, hbound⟩ := lib.size_spec _ _ _ _ hok
  refine ⟨?_, ?_, ?_, ?_⟩
  · simp [generate_qr_code, hok, hw, hh]
  · simp [hlen]
  · intro px hpx
    obtain ⟨v, hv, rfl⟩ := List.mem_map.mp hpx
    exact ⟨rfl, rfl, rfl, hbound v hv⟩
  · rw [List.map_map]
    have hid : ∀ l : List Nat,
        l.map ((fun px : Nat × Nat × Nat × Nat => px.1) ∘ (fun v => (v, v, v, 255))) = l := by
      intro l
      induction l with
      | nil => rfl
      | cons a t ih => simp only [List.map_cons, ih, Function.comp]
    exact hid img.pixels

/-- Claim C4 witness: render at the concrete library model and its text. -/
theorem C4_witness :
    generate_qr_code okLib helloText =
      some { size := (512, 512),
             rgba := (List.replicate (512 * 512) 255).map (fun v => (v, v, v, 255)) } :=
  (C4_render_rgba okLib helloText okImg rfl).1

/-- Claim C8: when the vCard text is non-empty, the rasterizer succeeds and
the filesystem write fails with message `e`, export returns (does not
swallow) an I/O error whose message carries `e`, after exactly one write
attempt (no retry). -/
theorem C8_io_error (lib : QrLib) (fs : String → GrayImage → Except String Unit)
    (text path : String) (img : GrayImage) (e : String)
    (hne : text.isEmpty = false)
    (hok : lib.to_image_buffer text QrCodeEcc.Medium 512 = Except.ok img)
    (hfs : fs path img = Except.error e) :
    save_qr_code_to_png lib fs text path =
      (PanicOr.ret (Except.error ("Failed to save QR code: " ++ e)),
       [Effect.rasterize text, Effect.writeFile path img]) := by
  simp [save_qr_code_to_png, hne, hok, hfs]

/-- Claim C8 witness: the statement at the concrete library model and the
always-failing filesystem. -/
theorem C8_witness :
    save_qr_code_to_png okLib fsFail helloText defaultPath =
      (PanicOr.ret (Except.error ("Failed to save QR code: " ++ "permission denied")),
       [Effect.rasterize helloText, Effect.writeFile defaultPath okImg]) :=
  C8_io_error okLib fsFail helloText defaultPath okImg "permission denied" rfl rfl rfl

/-- Claim C9 counterexample: a non-empty text on which the rasterizer fails
(as the real library does once the text exceeds the QR capacity at level
Medium) makes export panic instead of succeeding, even though every write on
this filesystem would succeed.  The success claimed for every non-empty text
therefore fails. -/
theorem C9_counterexample :
    save_qr_code_to_png errLib fsOk helloText defaultPath =
      (PanicOr.panicked "data too long", [Effect.rasterize helloText]) := by
  rfl

/-- Claim C9 (amended): for every non-empty vCard text on which the
rasterizer succeeds and every path at which the filesystem write succeeds,
export succeeds, the one file written is the rasterized image of exactly the
input text, and a conforming scanner re-decodes that image to the original
text. -/
theorem C9_roundtrip (lib : QrLib) (fs : String → GrayImage → Except String Unit)
    (text path : String) (img : GrayImage)
    (hne : text.isEmpty = false)
    (hok : lib.to_image_buffer text QrCodeEcc.Medium 512 = Except.ok img)
    (hfs : fs path img = Except.ok ()) :
    save_qr_code_to_png lib fs text path =
      (PanicOr.ret (Except.ok ()),
       [Effect.rasterize text, Effect.writeFile path img]) ∧
    lib.decode_image img = some text := by
  constructor
  · simp [save_qr_code_to_png, hne, hok, hfs]
  · exact lib.decode_spec _ _ _ _ hok

/-- Claim C9 witness: the round trip at the concrete library model. -/
theorem C9_witness :
    (save_qr_code_to_png okLib fsOk helloText defaultPath =
      (PanicOr.ret (Except.ok ()),
       [Effect.rasterize helloText, Effect.writeFile defaultPath okImg])) ∧
    okLib.decode_image okImg = some helloText :=
  C9_roundtrip okLib fsOk helloText defaultPath okImg rfl rfl rfl

/-- Claim C10: whenever the library call fails (which happens exactly for
texts beyond the QR capacity), the unwrap panics in both paths: render
returns no image, and export of a non-empty text ends in a panic carrying
the library message — neither the empty-input error nor the I/O error path
covers this outcome. -/
theorem C10_unwrap_panics (lib : QrLib) (fs : String → GrayImage → Except String Unit)
    (text path : String) (e : String)
    (herr : lib.to_image_buffer text QrCodeEcc.Medium 512 = Except.error e)
    (hne : text.isEmpty = false) :
    generate_qr_code lib text = none ∧
    save_qr_code_to_png lib fs text path = (PanicOr.panicked e, [Effect.rasterize text]) := by
  constructor
  · simp [generate_qr_code, herr]
  · simp [save_qr_code_to_png, hne, herr]

/-- Claim C10 witness: the panics at the always-failing library model. -/
theorem C10_witness :
    generate_qr_code errLib helloText = none ∧
    save_qr_code_to_png errLib fsOk helloText defaultPath =
      (PanicOr.panicked "data too long", [Effect.rasterize helloText]) :=
  C10_unwrap_panics errLib fsOk helloText defaultPath "data too long" rfl (by decide)

/-- Claim C1 counterexample: because field values are inserted without
escaping, a record whose note embeds a newline followed by a forged `N:`
line produces two lines beginning with `N:`, refuting the claim for every
record. -/
theorem C1_counterexample :
    (linesOf (forgedContact.generate_vcard)).countP (lineStarts pN) = 2 := by
  decide

/-- Claim C1 (amended): for every record the encoder output starts with
`BEGIN:VCARD` followed by a newline and ends with `END:VCARD` with no
trailing newline; and whenever no field value contains a newline character,
the output has exactly one line beginning with `N:` and exactly one line
beginning with `FN:`. -/
theorem C1_vcard_shape (r : BusinessContact) :
    ("BEGIN:VCARD" ++ nl).data.isPrefixOf (r.generate_vcard).data = true ∧
    ("END:VCARD").data.isSuffixOf (r.generate_vcard).data = true ∧
    (r.generate_vcard).data.getLast? ≠ some '\n' ∧
    (NoNewlines r →
      (linesOf (r.generate_vcard)).countP (lineStarts pN) = 1 ∧
      (linesOf (r.generate_vcard)).countP (lineStarts pFN) = 1) := by
  have hsuf : ("END:VCARD").data <:+ (r.generate_vcard).data := by
    rw [generate_vcard_data]
    repeat first
    | exact List.suffix_refl _
    | apply suffix_cons_right
    | apply suffix_append_right
  refine ⟨?_, ?_, ?_, ?_⟩
  · rw [generate_vcard_data]
    simp +decide [List.isPrefixOf, List.cons_append, String.data_append, nl_data]
  · exact List.isSuffixOf_iff_suffix.mpr hsuf
  · obtain ⟨t, ht⟩ := hsuf
    rw [← ht, List.getLast?_append_of_ne_nil _ (by decide)]
    decide
  · intro h
    rw [linesOf_generate_vcard r h]
    constructor
    · simp +decide [vcardLines, lineStarts, pN, List.countP_append, List.countP_cons,
        countP_opt, isPrefixOf_append_of_isPrefixOf, isPrefixOf_append_false]
    · simp +decide [vcardLines, lineStarts, pFN, List.countP_append, List.countP_cons,
        countP_opt, isPrefixOf_append_of_isPrefixOf, isPrefixOf_append_false]

/-- Claim C1 witness: the amended statement at the Jane Doe record, the
newline-freedom hypothesis discharged. -/
theorem C1_witness :
    ("BEGIN:VCARD" ++ nl).data.isPrefixOf (janeDoe.generate_vcard).data = true ∧
    (linesOf (janeDoe.generate_vcard)).countP (lineStarts pN) = 1 ∧
    (linesOf (janeDoe.generate_vcard)).countP (lineStarts pFN) = 1 :=
  ⟨(C1_vcard_shape janeDoe).1,
   ((C1_vcard_shape janeDoe).2.2.2 (by decide)).1,
   ((C1_vcard_shape janeDoe).2.2.2 (by decide)).2⟩

/-- Claim C2 counterexample: a record with an empty organization field whose
note embeds a forged `ORG:` line still shows a line beginning with `ORG:`,
refuting the only-if direction for every record. -/
theorem C2_counterexample :
    ((linesOf (forgedContact.generate_vcard)).any (lineStarts pORG) = true) ∧
    forgedContact.organization.isEmpty = true := by
  decide

/-- Claim C2 (amended): for every record none of whose field values contains
a newline character, each field-specific line marker appears at the start of
a line of the encoder output if and only if the corresponding field is
non-empty. -/
theorem C2_field_lines (r : BusinessContact) (h : NoNewlines r) :
    (((linesOf (r.generate_vcard)).any (lineStarts pORG) = true) ↔
      r.organization.isEmpty = false) ∧
    (((linesOf (r.generate_vcard)).any (lineStarts pTITLE) = true) ↔
      r.title.isEmpty = false) ∧
    (((linesOf (r.generate_vcard)).any (lineStarts pEMAIL) = true) ↔
      r.email.isEmpty = false) ∧
    (((linesOf (r.generate_vcard)).any (lineStarts pTELW) = true) ↔
      r.phone.isEmpty = false) ∧
    (((linesOf (r.generate_vcard)).any (lineStarts pTELC) = true) ↔
      r.mobile.isEmpty = false) ∧
    (((linesOf (r.generate_vcard)).any (lineStarts pURL) = true) ↔
      r.website.isEmpty = false) ∧
    (((linesOf (r.generate_vcard)).any (lineStarts pADR) = true) ↔
      r.address.isEmpty = false) ∧
    (((linesOf (r.generate_vcard)).any (lineStarts pNOTE) = true) ↔
      r.note.isEmpty = false) := by
  rw [linesOf_generate_vcard r h]
  refine ⟨?_, ?_, ?_, ?_, ?_, ?_, ?_, ?_⟩ <;>
    simp +decide [vcardLines, lineStarts, pORG, pTITLE, pEMAIL, pTELW, pTELC, pURL,
      pADR, pNOTE, List.any_append, List.any_cons, any_opt,
      isPrefixOf_append_of_isPrefixOf, isPrefixOf_append_false]

/-- Claim C2 witness: the amended statement at the Jane Doe record. -/
theorem C2_witness :
    (((linesOf (janeDoe.generate_vcard)).any (lineStarts pORG) = true) ↔
      janeDoe.organization.isEmpty = false) ∧
    (((linesOf (janeDoe.generate_vcard)).any (lineStarts pTITLE) = true) ↔
      janeDoe.title.isEmpty = false) ∧
    (((linesOf (janeDoe.generate_vcard)).any (lineStarts pEMAIL) = true) ↔
      janeDoe.email.isEmpty = false) ∧
    (((linesOf (janeDoe.generate_vcard)).any (lineStarts pTELW) = true) ↔
      janeDoe.phone.isEmpty = false) ∧
    (((linesOf (janeDoe.generate_vcard)).any (lineStarts pTELC) = true) ↔
      janeDoe.mobile.isEmpty = false) ∧
    (((linesOf (janeDoe.generate_vcard)).any (lineStarts pURL) = true) ↔
      janeDoe.website.isEmpty = false) ∧
    (((linesOf (janeDoe.generate_vcard)).any (lineStarts pADR) = true) ↔
      janeDoe.address.isEmpty = false) ∧
    (((linesOf (janeDoe.generate_vcard)).any (lineStarts pNOTE) = true) ↔
      janeDoe.note.isEmpty = false) :=
  C2_field_lines janeDoe (by decide)

/-- Claim C5 counterexample: the Jane Doe record does encode to exactly the
listed lines joined by newlines, but those are seven lines, not six as the
claim counts them. -/
theorem C5_counterexample :
    janeDoe.generate_vcard =
      String.intercalate nl ["BEGIN:VCARD", "VERSION:3.0", "N:Doe;Jane;;;", "FN:Jane Doe",
        "ORG:Acme", "EMAIL;type=WORK,INTERNET:jane@acme.com", "END:VCARD"] ∧
    (["BEGIN:VCARD", "VERSION:3.0", "N:Doe;Jane;;;", "FN:Jane Doe",
      "ORG:Acme", "EMAIL;type=WORK,INTERNET:jane@acme.com", "END:VCARD"] : List String).length
      ≠ 6 := by
  constructor
  · decide
  · decide

/-- Claim C5 (amended): the Jane Doe record encodes to exactly the seven
lines `BEGIN:VCARD`, `VERSION:3.0`, `N:Doe;Jane;;;`, `FN:Jane Doe`,
`ORG:Acme`, `EMAIL;type=WORK,INTERNET:jane@acme.com`, `END:VCARD` joined by
newlines with no trailing newline. -/
theorem C5_example_jane :
    janeDoe.generate_vcard =
      String.intercalate nl ["BEGIN:VCARD", "VERSION:3.0", "N:Doe;Jane;;;", "FN:Jane Doe",
        "ORG:Acme", "EMAIL;type=WORK,INTERNET:jane@acme.com", "END:VCARD"] := by
  decide

/-- Claim C6: the record with all ten fields empty encodes to exactly
`BEGIN:VCARD`, `VERSION:3.0`, `N:;;;;`, `FN: ` (with its single space) and
`END:VCARD` joined by newlines, with no optional field line between the FN
line and `END:VCARD` and no trailing newline. -/
theorem C6_empty_record :
    emptyContact.generate_vcard = "BEGIN:VCARD\nVERSION:3.0\nN:;;;;\nFN: \nEND:VCARD" := by
  decide

/-- Claim C7: field values are inserted verbatim.  For every record, the
output decomposes around each emitted line as some prefix, then the fixed
line marker immediately followed by the raw field value and the line
terminator, then some suffix — for arbitrary field contents, so no escaping
or transformation of commas, semicolons, backslashes or newlines inside the
values takes place. -/
theorem C7_verbatim (r : BusinessContact) :
    (∃ A B : String, r.generate_vcard = A ++ ("N:" ++ r.last_name ++ ";" ++ r.first_name ++ ";;;" ++ nl) ++ B) ∧
    (∃ A B : String, r.generate_vcard = A ++ ("FN:" ++ r.first_name ++ " " ++ r.last_name ++ nl) ++ B) ∧
    (r.organization.isEmpty = false →
      ∃ A B : String, r.generate_vcard = A ++ ("ORG:" ++ r.organization ++ nl) ++ B) ∧
    (r.title.isEmpty = false →
      ∃ A B : String, r.generate_vcard = A ++ ("TITLE:" ++ r.title ++ nl) ++ B) ∧
    (r.email.isEmpty = false →
      ∃ A B : String, r.generate_vcard = A ++ ("EMAIL;type=WORK,INTERNET:" ++ r.email ++ nl) ++ B) ∧
    (r.phone.isEmpty = false →
      ∃ A B : String, r.generate_vcard = A ++ ("TEL;type=WORK,voice:" ++ r.phone ++ nl) ++ B) ∧
    (r.mobile.isEmpty = false →
      ∃ A B : String, r.generate_vcard = A ++ ("TEL;type=CELL,voice:" ++ r.mobile ++ nl) ++ B) ∧
    (r.website.isEmpty = false →
      ∃ A B : String, r.generate_vcard = A ++ ("URL:" ++ r.website ++ nl) ++ B) ∧
    (r.address.isEmpty = false →
      ∃ A B : String, r.generate_vcard = A ++ ("ADR;type=WORK:;;" ++ r.address ++ ";;;;" ++ nl) ++ B) ∧
    (r.note.isEmpty = false →
      ∃ A B : String, r.generate_vcard = A ++ ("NOTE:" ++ r.note ++ nl) ++ B) := by
  refine ⟨?_, ?_, ?_, ?_, ?_, ?_, ?_, ?_, ?_, ?_⟩
  · exact ⟨"BEGIN:VCARD" ++ nl ++ "VERSION:3.0" ++ nl,
      "FN:" ++ r.first_name ++ " " ++ r.last_name ++ nl ++
      (if r.organization.isEmpty then "" else "ORG:" ++ r.organization ++ nl) ++
      (if r.title.isEmpty then "" else "TITLE:" ++ r.title ++ nl) ++
      (if r.email.isEmpty then "" else "EMAIL;type=WORK,INTERNET:" ++ r.email ++ nl) ++
      (if r.phone.isEmpty then "" else "TEL;type=WORK,voice:" ++ r.phone ++ nl) ++
      (if r.mobile.isEmpty then "" else "TEL;type=CELL,voice:" ++ r.mobile ++ nl) ++
      (if r.website.isEmpty then "" else "URL:" ++ r.website ++ nl) ++
      (if r.address.isEmpty then "" else "ADR;type=WORK:;;" ++ r.address ++ ";;;;" ++ nl) ++
      (if r.note.isEmpty then "" else "NOTE:" ++ r.note ++ nl) ++
      "END:VCARD",
      by simp [BusinessContact.generate_vcard, String.append_assoc]⟩
  · exact ⟨"BEGIN:VCARD" ++ nl ++ "VERSION:3.0" ++ nl ++
      "N:" ++ r.last_name ++ ";" ++ r.first_name ++ ";;;" ++ nl,
      (if r.organization.isEmpty then "" else "ORG:" ++ r.organization ++ nl) ++
      (if r.title.isEmpty then "" else "TITLE:" ++ r.title ++ nl) ++
      (if r.email.isEmpty then "" else "EMAIL;type=WORK,INTERNET:" ++ r.email ++ nl) ++
      (if r.phone.isEmpty then "" else "TEL;type=WORK,voice:" ++ r.phone ++ nl) ++
      (if r.mobile.isEmpty then "" else "TEL;type=CELL,voice:" ++ r.mobile ++ nl) ++
      (if r.website.isEmpty then "" else "URL:" ++ r.website ++ nl) ++
      (if r.address.isEmpty then "" else "ADR;type=WORK:;;" ++ r.address ++ ";;;;" ++ nl) ++
      (if r.note.isEmpty then "" else "NOTE:" ++ r.note ++ nl) ++
      "END:VCARD",
      by simp [BusinessContact.generate_vcard, String.append_assoc]⟩
  · intro hf
    exact ⟨"BEGIN:VCARD" ++ nl ++ "VERSION:3.0" ++ nl ++
      "N:" ++ r.last_name ++ ";" ++ r.first_name ++ ";;;" ++ nl ++
      "FN:" ++ r.first_name ++ " " ++ r.last_name ++ nl,
      (if r.title.isEmpty then "" else "TITLE:" ++ r.title ++ nl) ++
      (if r.email.isEmpty then "" else "EMAIL;type=WORK,INTERNET:" ++ r.email ++ nl) ++
      (if r.phone.isEmpty then "" else "TEL;type=WORK,voice:" ++ r.phone ++ nl) ++
      (if r.mobile.isEmpty then "" else "TEL;type=CELL,voice:" ++ r.mobile ++ nl) ++
      (if r.website.isEmpty then "" else "URL:" ++ r.website ++ nl) ++
      (if r.address.isEmpty then "" else "ADR;type=WORK:;;" ++ r.address ++ ";;;;" ++ nl) ++
      (if r.note.isEmpty then "" else "NOTE:" ++ r.note ++ nl) ++
      "END:VCARD",
      by simp [BusinessContact.generate_vcard, hf, String.append_assoc]⟩
  · intro hf
    exact ⟨"BEGIN:VCARD" ++ nl ++ "VERSION:3.0" ++ nl ++
      "N:" ++ r.last_name ++ ";" ++ r.first_name ++ ";;;" ++ nl ++
      "FN:" ++ r.first_name ++ " " ++ r.last_name ++ nl ++
      (if r.organization.isEmpty then "" else "ORG:" ++ r.organization ++ nl),
      (if r.email.isEmpty then "" else "EMAIL;type=WORK,INTERNET:" ++ r.email ++ nl) ++
      (if r.phone.isEmpty then "" else "TEL;type=WORK,voice:" ++ r.phone ++ nl) ++
      (if r.mobile.isEmpty then "" else "TEL;type=CELL,voice:" ++ r.mobile ++ nl) ++
      (if r.website.isEmpty then "" else "URL:" ++ r.website ++ nl) ++
      (if r.address.isEmpty then "" else "ADR;type=WORK:;;" ++ r.address ++ ";;;;" ++ nl) ++
      (if r.note.isEmpty then "" else "NOTE:" ++ r.note ++ nl) ++
      "END:VCARD",
      by simp [BusinessContact.generate_vcard, hf, String.append_assoc]⟩
  · intro hf
    exact ⟨"BEGIN:VCARD" ++ nl ++ "VERSION:3.0" ++ nl ++
      "N:" ++ r.last_name ++ ";" ++ r.first_name ++ ";;;" ++ nl ++
      "FN:" ++ r.first_name ++ " " ++ r.last_name ++ nl ++
      (if r.organization.isEmpty then "" else "ORG:" ++ r.organization ++ nl) ++
      (if r.title.isEmpty then "" else "TITLE:" ++ r.title ++ nl),
      (if r.phone.isEmpty then "" else "TEL;type=WORK,voice:" ++ r.phone ++ nl) ++
      (if r.mobile.isEmpty then "" else "TEL;type=CELL,voice:" ++ r.mobile ++ nl) ++
      (if r.website.isEmpty then "" else "URL:" ++ r.website ++ nl) ++
      (if r.address.isEmpty then "" else "ADR;type=WORK:;;" ++ r.address ++ ";;;;" ++ nl) ++
      (if r.note.isEmpty then "" else "NOTE:" ++ r.note ++ nl) ++
      "END:VCARD",
      by simp [BusinessContact.generate_vcard, hf, String.append_assoc]⟩
  · intro hf
    exact ⟨"BEGIN:VCARD" ++ nl ++ "VERSION:3.0" ++ nl ++
      "N:" ++ r.last_name ++ ";" ++ r.first_name ++ ";;;" ++ nl ++
      "FN:" ++ r.first_name ++ " " ++ r.last_name ++ nl ++
      (if r.organization.isEmpty then "" else "ORG:" ++ r.organization ++ nl) ++
      (if r.title.isEmpty then "" else "TITLE:" ++ r.title ++ nl) ++
      (if r.email.isEmpty then "" else "EMAIL;type=WORK,INTERNET:" ++ r.email ++ nl),
      (if r.mobile.isEmpty then "" else "TEL;type=CELL,voice:" ++ r.mobile ++ nl) ++
      (if r.website.isEmpty then "" else "URL:" ++ r.website ++ nl) ++
      (if r.address.isEmpty then "" else "ADR;type=WORK:;;" ++ r.address ++ ";;;;" ++ nl) ++
      (if r.note.isEmpty then "" else "NOTE:" ++ r.note ++ nl) ++
      "END:VCARD",
      by simp [BusinessContact.generate_vcard, hf, String.append_assoc]⟩
  · intro hf
    exact ⟨"BEGIN:VCARD" ++ nl ++ "VERSION:3.0" ++ nl ++
      "N:" ++ r.last_name ++ ";" ++ r.first_name ++ ";;;" ++ nl ++
      "FN:" ++ r.first_name ++ " " ++ r.last_name ++ nl ++
      (if r.organization.isEmpty then "" else "ORG:" ++ r.organization ++ nl) ++
      (if r.title.isEmpty then "" else "TITLE:" ++ r.title ++ nl) ++
      (if r.email.isEmpty then "" else "EMAIL;type=WORK,INTERNET:" ++ r.email ++ nl) ++
      (if r.phone.isEmpty then "" else "TEL;type=WORK,voice:" ++ r.phone ++ nl),
      (if r.website.isEmpty then "" else "URL:" ++ r.website ++ nl) ++
      (if r.address.isEmpty then "" else "ADR;type=WORK:;;" ++ r.address ++ ";;;;" ++ nl) ++
      (if r.note.isEmpty then "" else "NOTE:" ++ r.note ++ nl) ++
      "END:VCARD",
      by simp [BusinessContact.generate_vcard, hf, String.append_assoc]⟩
  · intro hf
    exact ⟨"BEGIN:VCARD" ++ nl ++ "VERSION:3.0" ++ nl ++
      "N:" ++ r.last_name ++ ";" ++ r.first_name ++ ";;;" ++ nl ++
      "FN:" ++ r.first_name ++ " " ++ r.last_name ++ nl ++
      (if r.organization.isEmpty then "" else "ORG:" ++ r.organization ++ nl) ++
      (if r.title.isEmpty then "" else "TITLE:" ++ r.title ++ nl) ++
      (if r.email.isEmpty then "" else "EMAIL;type=WORK,INTERNET:" ++ r.email ++ nl) ++
      (if r.phone.isEmpty then "" else "TEL;type=WORK,voice:" ++ r.phone ++ nl) ++
      (if r.mobile.isEmpty then "" else "TEL;type=CELL,voice:" ++ r.mobile ++ nl),
      (if r.address.isEmpty then "" else "ADR;type=WORK:;;" ++ r.address ++ ";;;;" ++ nl) ++
      (if r.note.isEmpty then "" else "NOTE:" ++ r.note ++ nl) ++
      "END:VCARD",
      by simp [BusinessContact.generate_vcard, hf, String.append_assoc]⟩
  · intro hf
    exact ⟨"BEGIN:VCARD" ++ nl ++ "VERSION:3.0" ++ nl ++
      "N:" ++ r.last_name ++ ";" ++ r.first_name ++ ";;;" ++ nl ++
      "FN:" ++ r.first_name ++ " " ++ r.last_name ++ nl ++
      (if r.organization.isEmpty then "" else "ORG:" ++ r.organization ++ nl) ++
      (if r.title.isEmpty then "" else "TITLE:" ++ r.title ++ nl) ++
      (if r.email.isEmpty then "" else "EMAIL;type=WORK,INTERNET:" ++ r.email ++ nl) ++
      (if r.phone.isEmpty then "" else "TEL;type=WORK,voice:" ++ r.phone ++ nl) ++
      (if r.mobile.isEmpty then "" else "TEL;type=CELL,voice:" ++ r.mobile ++ nl) ++
      (if r.website.isEmpty then "" else "URL:" ++ r.website ++ nl),
      (if r.note.isEmpty then "" else "NOTE:" ++ r.note ++ nl) ++
      "END:VCARD",
      by simp [BusinessContact.generate_vcard, hf, String.append_assoc]⟩
  · intro hf
    exact ⟨"BEGIN:VCARD" ++ nl ++ "VERSION:3.0" ++ nl ++
      "N:" ++ r.last_name ++ ";" ++ r.first_name ++ ";;;" ++ nl ++
      "FN:" ++ r.first_name ++ " " ++ r.last_name ++ nl ++
      (if r.organization.isEmpty then "" else "ORG:" ++ r.organization ++ nl) ++
      (if r.title.isEmpty then "" else "TITLE:" ++ r.title ++ nl) ++
      (if r.email.isEmpty then "" else "EMAIL;type=WORK,INTERNET:" ++ r.email ++ nl) ++
      (if r.phone.isEmpty then "" else "TEL;type=WORK,voice:" ++ r.phone ++ nl) ++
      (if r.mobile.isEmpty then "" else "TEL;type=CELL,voice:" ++ r.mobile ++ nl) ++
      (if r.website.isEmpty then "" else "URL:" ++ r.website ++ nl) ++
      (if r.address.isEmpty then "" else "ADR;type=WORK:;;" ++ r.address ++ ";;;;" ++ nl),
      "END:VCARD",
      by simp [BusinessContact.generate_vcard, hf, String.append_assoc]⟩

/-- Claim C7 witness: the verbatim decompositions at a record whose ten
fields are all non-empty and contain vCard-reserved characters. -/
theorem C7_witness :
    (∃ A B : String, fullContact.generate_vcard = A ++ ("N:" ++ fullContact.last_name ++ ";" ++ fullContact.first_name ++ ";;;" ++ nl) ++ B) ∧
    (∃ A B : String, fullContact.generate_vcard = A ++ ("FN:" ++ fullContact.first_name ++ " " ++ fullContact.last_name ++ nl) ++ B) ∧
    (∃ A B : String, fullContact.generate_vcard = A ++ ("ORG:" ++ fullContact.organization ++ nl) ++ B) ∧
    (∃ A B : String, fullContact.generate_vcard = A ++ ("TITLE:" ++ fullContact.title ++ nl) ++ B) ∧
    (∃ A B : String, fullContact.generate_vcard = A ++ ("EMAIL;type=WORK,INTERNET:" ++ fullContact.email ++ nl) ++ B) ∧
    (∃ A B : String, fullContact.generate_vcard = A ++ ("TEL;type=WORK,voice:" ++ fullContact.phone ++ nl) ++ B) ∧
    (∃ A B : String, fullContact.generate_vcard = A ++ ("TEL;type=CELL,voice:" ++ fullContact.mobile ++ nl) ++ B) ∧
    (∃ A B : String, fullContact.generate_vcard = A ++ ("URL:" ++ fullContact.website ++ nl) ++ B) ∧
    (∃ A B : String, fullContact.generate_vcard = A ++ ("ADR;type=WORK:;;" ++ fullContact.address ++ ";;;;" ++ nl) ++ B) ∧
    (∃ A B : String, fullContact.generate_vcard = A ++ ("NOTE:" ++ fullContact.note ++ nl) ++ B) :=
  ⟨(C7_verbatim fullContact).1,
   (C7_verbatim fullContact).2.1,
   (C7_verbatim fullContact).2.2.1 (by decide),
   (C7_verbatim fullContact).2.2.2.1 (by decide),
   (C7_verbatim fullContact).2.2.2.2.1 (by decide),
   (C7_verbatim fullContact).2.2.2.2.2.1 (by decide),
   (C7_verbatim fullContact).2.2.2.2.2.2.1 (by decide),
   (C7_verbatim fullContact).2.2.2.2.2.2.2.1 (by decide),
   (C7_verbatim fullContact).2.2.2.2.2.2.2.2.1 (by decide),
   (C7_verbatim fullContact).2.2.2.2.2.2.2.2.2 (by decide)⟩
